import Mathlib

/-!
Shallow embedding of the blog-content API server (Express + Mongoose):
the authentication middleware (`server/middleware/auth.js`), the posts and
auth routers (`server/routes/posts.js`, `server/routes/auth.js`), the
categories router (`server/routes/categories.js`) and the `Category`
mongoose schema (`server/models/Category.js`).

External collaborators are modelled as parameters or small abstract data:
the document store is a Lean list of documents, `bcrypt` password matching
and the `validator.js` e-mail format check are opaque boolean parameters,
and a JSON web token is a record carrying the signed payload, expiry and
the secret that signed it.
-/

namespace BlogApi

/-! ## JavaScript string primitives used by the code -/

/-- `s.startsWith(pre)` on JavaScript strings, expressed on the character
data of the two strings. -/
def strStartsWith (s pre : String) : Bool :=
  pre.data.isPrefixOf s.data

/-- Leading and trailing whitespace removal on a character list; this is
what the mongoose `trim: true` setter does to a string field. -/
def trimChars (cs : List Char) : List Char :=
  ((cs.dropWhile Char.isWhitespace).reverse.dropWhile Char.isWhitespace).reverse

/-- The mongoose `trim` setter on a string value. -/
def trimStr (s : String) : String :=
  ⟨trimChars s.data⟩

/-- Binary lexicographic string comparison, the default collation MongoDB
uses for a `sort({field: 1})` on string fields (code points compared
numerically, shorter string first on ties). -/
def lexLe : List Char → List Char → Bool
  | [], _ => true
  | _ :: _, [] => false
  | a :: as, b :: bs =>
    if a.toNat < b.toNat then true
    else if b.toNat < a.toNat then false
    else lexLe as bs

/-- `Math.ceil(num / den)` for integer `num` and nonzero integer `den`,
using that the ceiling of a quotient is the negated floor of the negated
quotient and that `Int.fdiv` is floor division. -/
def mathCeilDiv (num den : Int) : Int :=
  -(Int.fdiv (-num) den)

/-- `parseInt(q) || d`: an absent or non-numeric query value (`parseInt`
gives `NaN`, which is falsy) and a value parsing to `0` (also falsy) both
fall back to the default `d`. -/
def parseIntOr (q : Option Int) (d : Int) : Int :=
  match q with
  | none => d
  | some v => if v = 0 then d else v

/-! ## Data model -/

/-- A user document of the credential store (`User` model): `password`
holds the bcrypt hash. -/
structure User where
  id : String
  username : String
  email : String
  password : String
deriving DecidableEq, Repr

/-- A user record with the password hash field excluded, as produced by
`.select('-password')` in the auth middleware. -/
structure SafeUser where
  id : String
  username : String
  email : String
deriving DecidableEq, Repr

/-- `.select('-password')`: drop the password hash field. -/
def stripPassword (u : User) : SafeUser :=
  { id := u.id, username := u.username, email := u.email }

/-- A decoded JSON web token: the payload `{id}`, the issued-at and expiry
claims, and the secret whose signature the token carries. -/
structure Token where
  sub : String
  iat : Nat
  exp : Nat
  sig : String
deriving DecidableEq, Repr

/-- The token segment of an authorization header: either a well-formed
token string or garbage that `jwt.verify` cannot decode. -/
inductive TokenSeg where
  | valid (t : Token)
  | malformed (s : String)
deriving DecidableEq, Repr

/-- An embedded comment subdocument of a post. -/
structure CommentDoc where
  user : String
  content : String
deriving DecidableEq, Repr

/-- A post document (`Post` model). `author` and `category` are reference
ids in their canonical string form; `createdAt` is the creation
timestamp used by the list handler's sort. -/
structure Post where
  id : String
  title : String
  content : String
  category : String
  author : String
  featuredImage : String
  excerpt : String
  tags : List String
  isPublished : Bool
  comments : List CommentDoc
  createdAt : Nat
deriving DecidableEq, Repr

/-- A category document (`Category` model, `server/models/Category.js`).
The schema declares `name` as required, trimmed, unique and at most 50
characters long. -/
structure Category where
  id : String
  name : String
deriving DecidableEq, Repr

/-! ## Token service (`generateToken` in `server/routes/auth.js`) -/

/-- The `expiresIn: '7d'` window, in seconds. -/
def sevenDaysSeconds : Nat := 7 * 24 * 60 * 60

/-- `jwt.sign({id: user._id}, secret, {expiresIn: '7d'})` issued at time
`now` (seconds). -/
def generateToken (secret : String) (now : Nat) (userId : String) : Token :=
  { sub := userId, iat := now, exp := now + sevenDaysSeconds, sig := secret }

/-- `jwt.verify(token, secret)` at clock time `now`: fails (throws) when
the segment is absent (`undefined`), malformed, signed with a different
secret, or expired (`jsonwebtoken` rejects once `now` reaches `exp`);
otherwise yields the `id` of the payload. -/
def jwtVerify (secret : String) (now : Nat) (seg : Option TokenSeg) : Option String :=
  match seg with
  | none => none
  | some (.malformed _) => none
  | some (.valid t) => if t.sig = secret ∧ now < t.exp then some t.sub else none

/-! ## Auth gate (`server/middleware/auth.js`)

The raw `authorization` header is a string; the code checks
`header.startsWith('Bearer')` and extracts `header.split(' ')[1]`. Since
`'Bearer'` contains no space, the whole header starts with `'Bearer'`
exactly when its first space-separated segment does, so a present header
is modelled as its first segment together with its optional second
segment. -/

/-- `User.findById` on the credential store. -/
def findById (users : List User) (uid : String) : Option User :=
  users.find? (fun u => u.id = uid)

/-- Outcome of the middleware: either a short-circuiting rejection
`res.status(status).json({success:false, error})`, or `req.user` is set
and `next()` lets the pipeline proceed. -/
inductive AuthOutcome where
  | reject (status : Nat) (error : String)
  | proceed (user : SafeUser)
deriving DecidableEq, Repr

/-- The `authMiddleware` function: `header` is `none` when the request has
no `authorization` header, otherwise `some (scheme, seg)` with `scheme`
the first space-separated segment and `seg` the optional second one. -/
def authMiddleware (secret : String) (now : Nat) (users : List User)
    (header : Option (String × Option TokenSeg)) : AuthOutcome :=
  match header with
  | none => .reject 401 "No token provided"
  | some (scheme, seg) =>
    if strStartsWith scheme "Bearer" then
      match jwtVerify secret now seg with
      | none => .reject 401 "Not authorized"
      | some uid =>
        match findById users uid with
        | none => .reject 401 "User not found"
        | some u => .proceed (stripPassword u)
    else .reject 401 "No token provided"

/-! ## Posts router (`server/routes/posts.js`) -/

/-- The JSON envelope a posts-route handler sends:
`fail s e` is `res.status(s).json({success:false, error:e})`,
`failErrors s es` is `res.status(s).json({success:false, errors:es})`,
`okPost s p` is `res.status(s).json({success:true, data:p})`, and
`okMessage s m` is `res.status(s).json({success:true, message:m})`. -/
inductive ApiResponse where
  | fail (status : Nat) (error : String)
  | failErrors (status : Nat) (errors : List String)
  | okPost (status : Nat) (post : Post)
  | okMessage (status : Nat) (message : String)
deriving DecidableEq, Repr

/-- `Post.findById` on the post store. -/
def findPostById (store : List Post) (pid : String) : Option Post :=
  store.find? (fun p => p.id = pid)

/-- The request body of a `PUT /api/posts/:id` request. Every field is
optional; `Object.assign` copies whichever fields the client sent,
including fields such as `author` that the route never validates. -/
structure UpdateBody where
  title : Option String := none
  content : Option String := none
  category : Option String := none
  author : Option String := none
  featuredImage : Option String := none
  excerpt : Option String := none
  tags : Option (List String) := none
  isPublished : Option Bool := none
deriving DecidableEq, Repr

/-- The update route's validator chain: `title` is optional but at most
100 characters when present; `content` and `category` are optional with
no further constraint. The result is the list of violations
(`validationResult(req).array()`), empty when the body is valid. -/
def validateUpdateBody (b : UpdateBody) : List String :=
  match b.title with
  | some t => if t.data.length > 100 then ["Invalid value"] else []
  | none => []

/-- `Object.assign(post, req.body)`: each field present in the body
overwrites the corresponding field of the fetched document. -/
def mergeBody (p : Post) (b : UpdateBody) : Post :=
  { p with
    title := b.title.getD p.title
    content := b.content.getD p.content
    category := b.category.getD p.category
    author := b.author.getD p.author
    featuredImage := b.featuredImage.getD p.featuredImage
    excerpt := b.excerpt.getD p.excerpt
    tags := b.tags.getD p.tags
    isPublished := b.isPublished.getD p.isPublished }

/-- The `PUT /api/posts/:id` handler body (after the auth middleware):
fetch by id (404 when absent), then the ownership check
(`post.author.toString() !== req.user.id` gives 403), then the
validation result (400), then merge and save. Returns the response
together with the post store after the request. -/
def updatePost (store : List Post) (actingId : String) (postId : String)
    (bdy : UpdateBody) : ApiResponse × List Post :=
  match findPostById store postId with
  | none => (.fail 404 "Post not found", store)
  | some post =>
    if post.author ≠ actingId then (.fail 403 "Unauthorized", store)
    else
      let errs := validateUpdateBody bdy
      if errs ≠ [] then (.failErrors 400 errs, store)
      else
        let updated := mergeBody post bdy
        (.okPost 200 updated, store.map (fun p => if p.id = postId then updated else p))

/-- The `DELETE /api/posts/:id` handler body (after the auth middleware):
fetch by id (404 when absent), then the ownership check (403), then
`post.remove()`. -/
def deletePost (store : List Post) (actingId : String) (postId : String) :
    ApiResponse × List Post :=
  match findPostById store postId with
  | none => (.fail 404 "Post not found", store)
  | some post =>
    if post.author ≠ actingId then (.fail 403 "Unauthorized", store)
    else (.okMessage 200 "Post deleted", store.filter (fun p => p.id ≠ postId))

/-- The filter the list handler builds: `if (category) filter.category =
category` — a JavaScript truthiness test, so an absent parameter and the
empty string both leave the filter empty. -/
def categoryFilterPosts (store : List Post) (catQ : Option String) : List Post :=
  match catQ with
  | some c => if c = "" then store else store.filter (fun p => p.category = c)
  | none => store

/-- The relation `sort({createdAt: -1})` orders by: creation time
descending. -/
def createdDesc (a b : Post) : Prop := b.createdAt ≤ a.createdAt

instance : DecidableRel createdDesc := fun a b => Nat.decLe b.createdAt a.createdAt

/-- The store's `sort({createdAt: -1})` operation (a stable sort). -/
def sortPostsByCreatedDesc (ps : List Post) : List Post :=
  List.insertionSort createdDesc ps

/-- The pagination metadata object of the list response. -/
structure Pagination where
  total : Nat
  page : Int
  pages : Int
deriving DecidableEq, Repr

/-- The `GET /api/posts` handler: parse `page` and `limit` with defaults
1 and 10, build the category filter, query with sort, skip
`(page-1)*limit` and limit `limit` (modelled on the nonnegative range the
store accepts, clamping at 0), count the matching documents, and answer
with the items and `{total, page, pages: Math.ceil(total/limit)}`. -/
def listPosts (store : List Post) (pageQ limitQ : Option Int) (catQ : Option String) :
    List Post × Pagination :=
  let page := parseIntOr pageQ 1
  let limit := parseIntOr limitQ 10
  let matching := categoryFilterPosts store catQ
  let items := ((sortPostsByCreatedDesc matching).drop ((page - 1) * limit).toNat).take limit.toNat
  let total := matching.length
  (items, { total := total, page := page, pages := mathCeilDiv (total : Int) limit })

/-! ## Auth router (`server/routes/auth.js`) -/

/-- The body of a `POST /api/auth/login` request. -/
structure LoginBody where
  email : String
  password : String
deriving DecidableEq, Repr

/-- The login route's validator chain: `email` must satisfy the external
e-mail format check (`isEmail`, abstracted as a parameter) and `password`
must be non-empty. Yields the list of violations. -/
def validateLogin (emailValid : String → Bool) (b : LoginBody) : List String :=
  (if emailValid b.email then [] else ["Valid email is required"]) ++
    (if b.password = "" then ["Password is required"] else [])

/-- `User.findOne({email})` on the credential store. -/
def findByEmail (users : List User) (email : String) : Option User :=
  users.find? (fun u => u.email = email)

/-- The JSON envelope of a login response: `invalid` is the 400
validation answer `{success:false, errors}`, `err` is
`{success:false, error}` with its status, and `ok` is the 200 answer
carrying the user projection and a fresh token. -/
inductive LoginResult where
  | invalid (status : Nat) (success : Bool) (errors : List String)
  | err (status : Nat) (success : Bool) (error : String)
  | ok (status : Nat) (success : Bool) (id username email : String) (token : Token)
deriving DecidableEq, Repr

/-- The `POST /api/auth/login` handler: validation first, then
`User.findOne({email})` (unknown e-mail answers 401
`'Invalid credentials'`), then `user.matchPassword(password)` (the bcrypt
comparison, abstracted as `matchPassword hash candidate`; a mismatch
answers the identical 401 body), else 200 with a fresh token. -/
def login (emailValid : String → Bool) (matchPassword : String → String → Bool)
    (secret : String) (now : Nat) (users : List User) (bdy : LoginBody) : LoginResult :=
  let errs := validateLogin emailValid bdy
  if errs ≠ [] then .invalid 400 false errs
  else
    match findByEmail users bdy.email with
    | none => .err 401 false "Invalid credentials"
    | some user =>
      if matchPassword user.password bdy.password then
        .ok 200 true user.id user.username bdy.email (generateToken secret now user.id)
      else .err 401 false "Invalid credentials"

/-! ## Categories router (`server/routes/categories.js`) -/

/-- The JSON envelope of a create-category response: `invalid` is the 400
validation answer, `err` the 400 conflict answer, `created` the 201
answer, and `thrown` the path where `category.save()` throws a mongoose
validation or duplicate-index error that `next(err)` hands to the generic
fallback handler (no 201, nothing stored). -/
inductive CategoryResult where
  | invalid (status : Nat) (success : Bool) (errors : List String)
  | err (status : Nat) (success : Bool) (error : String)
  | created (status : Nat) (success : Bool) (category : Category)
  | thrown
deriving DecidableEq, Repr

/-- `category.save()` under the `Category` schema
(`server/models/Category.js`): the `trim` setter trims the name, the
`required` validator rejects an empty trimmed name, `maxlength: [50]`
rejects names longer than 50 characters, and the `unique` index rejects a
document whose (trimmed) name is already stored. On success the saved
document carries the trimmed name. -/
def saveCategory (store : List Category) (c : Category) : Option Category :=
  let t := trimStr c.name
  if t = "" then none
  else if t.data.length > 50 then none
  else if store.any (fun x => x.name = t) then none
  else some { c with name := t }

/-- The `POST /api/categories` handler body (after the auth middleware):
the `name` field must be non-empty (`notEmpty`, failing also when the
field is absent), then `Category.findOne({name})` answers 400
`'Category already exists'` on a hit, else a new document is saved and
answered with 201. Returns the response with the category store after
the request. -/
def createCategory (store : List Category) (newId : String) (bdy : Option String) :
    CategoryResult × List Category :=
  match bdy with
  | none => (.invalid 400 false ["Category name is required"], store)
  | some name =>
    if name = "" then (.invalid 400 false ["Category name is required"], store)
    else
      match store.find? (fun c => c.name = name) with
      | some _ => (.err 400 false "Category already exists", store)
      | none =>
        match saveCategory store { id := newId, name := name } with
        | none => (.thrown, store)
        | some saved => (.created 201 true saved, store ++ [saved])

/-- The relation `sort({name: 1})` orders by: name ascending in the
store's binary collation. -/
def catNameLe (a b : Category) : Prop := lexLe a.name.data b.name.data = true

instance : DecidableRel catNameLe := fun a b => instDecidableEqBool (lexLe a.name.data b.name.data) true

/-- The `GET /api/categories` handler: `Category.find().sort({name: 1})`
(a stable sort by name ascending). -/
def listCategories (store : List Category) : List Category :=
  List.insertionSort catNameLe store

/-! ## Helper lemmas -/

theorem lexLe_total : ∀ as bs, lexLe as bs = true ∨ lexLe bs as = true
  | [], _ => Or.inl rfl
  | _ :: _, [] => Or.inr rfl
  | a :: as, b :: bs => by
    rcases Nat.lt_trichotomy a.toNat b.toNat with h | h | h
    · left
      simp [lexLe, h]
    · have h1 : ¬ a.toNat < b.toNat := by omega
      have h2 : ¬ b.toNat < a.toNat := by omega
      rcases lexLe_total as bs with ih | ih
      · left
        simp [lexLe, h1, h2, ih]
      · right
        simp [lexLe, h1, h2, ih]
    · right
      simp [lexLe, h]

theorem lexLe_trans : ∀ as bs cs, lexLe as bs = true → lexLe bs cs = true →
    lexLe as cs = true
  | [], _, _, _, _ => rfl
  | a :: as, [], _, h1, _ => by simp [lexLe] at h1
  | _ :: _, _ :: _, [], _, h2 => by simp [lexLe] at h2
  | a :: as, b :: bs, c :: cs, h1, h2 => by
    simp only [lexLe] at h1 h2 ⊢
    split_ifs at h1 h2 ⊢ <;>
      first
        | rfl
        | omega
        | exact lexLe_trans as bs cs h1 h2

instance : IsTotal Category catNameLe :=
  ⟨fun a b => lexLe_total a.name.data b.name.data⟩

instance : IsTrans Category catNameLe :=
  ⟨fun a b c => lexLe_trans a.name.data b.name.data c.name.data⟩

instance : IsTotal Post createdDesc :=
  ⟨fun a b => Nat.le_total b.createdAt a.createdAt⟩

instance : IsTrans Post createdDesc :=
  ⟨fun _ _ _ hab hbc => Nat.le_trans hbc hab⟩

/-- `Math.ceil(n / l)` on natural `n` and positive natural `l` is the
rounding-up integer division `(n + l - 1) / l`. -/
theorem mathCeilDiv_natCast (n l : ℕ) (hl : 0 < l) :
    mathCeilDiv (n : Int) (l : Int) = (((n + l - 1) / l : ℕ) : Int) := by
  obtain ⟨k, rfl⟩ : ∃ k, l = k + 1 := ⟨l - 1, by omega⟩
  cases n with
  | zero =>
    show -(Int.fdiv (-(0 : Int)) _) = _
    rw [neg_zero]
    have hz : Int.fdiv 0 ((k : ℕ) + 1 : ℕ) = 0 := rfl
    rw [hz, neg_zero]
    have : (0 + (k + 1) - 1) / (k + 1) = 0 := by
      apply Nat.div_eq_of_lt
      omega
    rw [this]
    rfl
  | succ m =>
    have hneg : (-((m + 1 : ℕ) : Int)) = Int.negSucc m := rfl
    have hfdiv : Int.fdiv (Int.negSucc m) (((k + 1 : ℕ) : Int)) = Int.negSucc (m / (k + 1)) := rfl
    have hout : mathCeilDiv ((m + 1 : ℕ) : Int) (((k + 1 : ℕ) : Int)) =
        ((m / (k + 1) + 1 : ℕ) : Int) := by
      show -(Int.fdiv (-((m + 1 : ℕ) : Int)) (((k + 1 : ℕ) : Int))) = _
      rw [hneg, hfdiv]
      rfl
    rw [hout]
    have harg : (m + 1) + (k + 1) - 1 = m + (k + 1) := by omega
    rw [harg, Nat.add_div_right m (by omega : 0 < k + 1)]

/-! ## Concrete fixtures for witnesses and counterexamples -/

def demoUser : User :=
  { id := "u1", username := "alice", email := "alice@example.com", password := "hash1" }

def demoUsers : List User := [demoUser]

def alicePost : Post :=
  { id := "p1", title := "Hello", content := "World", category := "c1",
    author := "alice", featuredImage := "default-post.jpg", excerpt := "",
    tags := [], isPublished := false, comments := [], createdAt := 5 }

def emptyUpdateBody : UpdateBody := {}

def longTitleBody : UpdateBody := { title := some ⟨List.replicate 101 'x'⟩ }

def authorBody : UpdateBody := { author := some "mallory" }

def mkPost (i : ℕ) : Post :=
  { id := "", title := "", content := "", category := "", author := "",
    featuredImage := "", excerpt := "", tags := [], isPublished := false,
    comments := [], createdAt := i }

def twelvePosts : List Post := (List.range 12).map mkPost

def artCat : Category := { id := "c0", name := "Art" }

def longCatName : String := ⟨List.replicate 51 'a'⟩

/-! ## Claim theorems -/

/-- Claim C4: the auth gate is the following total case analysis — absent
header or one not starting with `Bearer` answers 401
`'No token provided'`; a failing token verification answers 401
`'Not authorized'`; an unknown subject id answers 401 `'User not found'`;
otherwise the resolved identity, password hash excluded, is attached and
the pipeline proceeds. Each failure short-circuits with a
`{success:false, error}` body. -/
theorem authMiddleware_case_analysis (secret : String) (now : Nat) (users : List User)
    (header : Option (String × Option TokenSeg)) :
    (header = none →
      authMiddleware secret now users header = .reject 401 "No token provided") ∧
    (∀ scheme seg, header = some (scheme, seg) →
      strStartsWith scheme "Bearer" = false →
      authMiddleware secret now users header = .reject 401 "No token provided") ∧
    (∀ scheme seg, header = some (scheme, seg) →
      strStartsWith scheme "Bearer" = true →
      jwtVerify secret now seg = none →
      authMiddleware secret now users header = .reject 401 "Not authorized") ∧
    (∀ scheme seg uid, header = some (scheme, seg) →
      strStartsWith scheme "Bearer" = true →
      jwtVerify secret now seg = some uid →
      findById users uid = none →
      authMiddleware secret now users header = .reject 401 "User not found") ∧
    (∀ scheme seg uid u, header = some (scheme, seg) →
      strStartsWith scheme "Bearer" = true →
      jwtVerify secret now seg = some uid →
      findById users uid = some u →
      authMiddleware secret now users header = .proceed (stripPassword u)) := by
  refine ⟨?_, ?_, ?_, ?_, ?_⟩
  · rintro rfl
    rfl
  · rintro scheme seg rfl hs
    simp [authMiddleware, hs]
  · rintro scheme seg rfl hs hv
    simp [authMiddleware, hs, hv]
  · rintro scheme seg uid rfl hs hv hu
    simp [authMiddleware, hs, hv, hu]
  · rintro scheme seg uid u rfl hs hv hu
    simp [authMiddleware, hs, hv, hu]

/-- Claim C4 witness: each of the five branches at a concrete request. -/
theorem authMiddleware_case_analysis_witness :
    authMiddleware "secret" 0 demoUsers none = .reject 401 "No token provided" ∧
    authMiddleware "secret" 0 demoUsers (some ("Basic", none)) =
      .reject 401 "No token provided" ∧
    authMiddleware "secret" 0 demoUsers
      (some ("Bearer", some (.malformed "zzz"))) = .reject 401 "Not authorized" ∧
    authMiddleware "secret" 0 demoUsers
      (some ("Bearer", some (.valid (generateToken "secret" 0 "ghost")))) =
      .reject 401 "User not found" ∧
    authMiddleware "secret" 0 demoUsers
      (some ("Bearer", some (.valid (generateToken "secret" 0 "u1")))) =
      .proceed (stripPassword demoUser) := by
  refine ⟨?_, ?_, ?_, ?_, ?_⟩
  · exact (authMiddleware_case_analysis "secret" 0 demoUsers none).1 rfl
  · exact (authMiddleware_case_analysis "secret" 0 demoUsers
      (some ("Basic", none))).2.1 "Basic" none rfl (by decide)
  · exact (authMiddleware_case_analysis "secret" 0 demoUsers
      (some ("Bearer", some (.malformed "zzz")))).2.2.1 "Bearer"
      (some (.malformed "zzz")) rfl (by decide) rfl
  · exact (authMiddleware_case_analysis "secret" 0 demoUsers
      (some ("Bearer", some (.valid (generateToken "secret" 0 "ghost"))))).2.2.2.1
      "Bearer" (some (.valid (generateToken "secret" 0 "ghost"))) "ghost" rfl
      (by decide) (by decide) (by decide)
  · exact (authMiddleware_case_analysis "secret" 0 demoUsers
      (some ("Bearer", some (.valid (generateToken "secret" 0 "u1"))))).2.2.2.2
      "Bearer" (some (.valid (generateToken "secret" 0 "u1"))) "u1" demoUser rfl
      (by decide) (by decide) (by decide)

/-- Claim C9: a header whose first segment starts with `Bearer` but which
has no second space-separated segment (for example the header `'Bearer'`
alone) makes `jwt.verify` throw on an `undefined` token, so the gate
answers 401 `'Not authorized'`, not `'No token provided'`. -/
theorem authMiddleware_bearer_without_token (secret : String) (now : Nat)
    (users : List User) (scheme : String)
    (h : strStartsWith scheme "Bearer" = true) :
    authMiddleware secret now users (some (scheme, none)) =
      .reject 401 "Not authorized" := by
  simp [authMiddleware, h, jwtVerify]

/-- Claim C9 witness: the header that is exactly `'Bearer'`. -/
theorem authMiddleware_bearer_without_token_witness :
    authMiddleware "topsecret" 3 demoUsers (some ("Bearer", none)) =
      .reject 401 "Not authorized" :=
  authMiddleware_bearer_without_token "topsecret" 3 demoUsers "Bearer" (by decide)

/-- Claim C5: verifying a token right after issuing it for an identity
succeeds and yields that identity's id; once the 7-day window has passed
verification fails, and the auth gate then answers 401
`'Not authorized'`. -/
theorem token_roundtrip (secret uid : String) (now later : Nat) (users : List User)
    (h : now + sevenDaysSeconds ≤ later) :
    jwtVerify secret now (some (.valid (generateToken secret now uid))) = some uid ∧
    jwtVerify secret later (some (.valid (generateToken secret now uid))) = none ∧
    authMiddleware secret later users
      (some ("Bearer", some (.valid (generateToken secret now uid)))) =
      .reject 401 "Not authorized" := by
  have hok : jwtVerify secret now (some (.valid (generateToken secret now uid))) =
      some uid := by
    have hlt : now < now + sevenDaysSeconds := by simp [sevenDaysSeconds]
    simp [jwtVerify, generateToken, hlt]
  have hexp : jwtVerify secret later (some (.valid (generateToken secret now uid))) =
      none := by
    have hge : ¬ later < now + sevenDaysSeconds := by omega
    simp [jwtVerify, generateToken, hge]
  refine ⟨hok, hexp, ?_⟩
  simp [authMiddleware, hexp, show strStartsWith "Bearer" "Bearer" = true from by decide]

/-- Claim C5 witness: a token issued at time 0 verifies at time 0 and is
rejected at the end of the window, 604800 seconds later. -/
theorem token_roundtrip_witness :
    jwtVerify "secret" 0 (some (.valid (generateToken "secret" 0 "u1"))) = some "u1" ∧
    jwtVerify "secret" 604800 (some (.valid (generateToken "secret" 0 "u1"))) = none ∧
    authMiddleware "secret" 604800 demoUsers
      (some ("Bearer", some (.valid (generateToken "secret" 0 "u1")))) =
      .reject 401 "Not authorized" :=
  token_roundtrip "secret" "u1" 0 604800 demoUsers (by decide)

/-- Claim C1: an update or delete request on an existing post whose body
passes validation but whose acting identity differs from the post's
recorded author answers 403 `{success:false, error:'Unauthorized'}` and
leaves the post store unchanged. -/
theorem ownership_mismatch_forbidden (store : List Post) (actingId postId : String)
    (bdy : UpdateBody) (post : Post)
    (hfind : findPostById store postId = some post)
    (_hval : validateUpdateBody bdy = [])
    (hown : post.author ≠ actingId) :
    updatePost store actingId postId bdy = (.fail 403 "Unauthorized", store) ∧
    deletePost store actingId postId = (.fail 403 "Unauthorized", store) := by
  constructor
  · simp [updatePost, hfind, hown]
  · simp [deletePost, hfind, hown]

/-- Claim C1 witness: the non-author `'bob'` attacks `alicePost` with a
valid body. -/
theorem ownership_mismatch_forbidden_witness :
    updatePost [alicePost] "bob" "p1" emptyUpdateBody =
      (.fail 403 "Unauthorized", [alicePost]) ∧
    deletePost [alicePost] "bob" "p1" = (.fail 403 "Unauthorized", [alicePost]) :=
  ownership_mismatch_forbidden [alicePost] "bob" "p1" emptyUpdateBody alicePost
    (by decide) (by decide) (by decide)

/-- Claim C2 (the code violates it): an accepted update merges the whole
request body into the post via `Object.assign`, so a body carrying an
`author` field rewrites the post's author. Here the author `'alice'`
updates her own post `p1` with the valid body `{author:'mallory'}`: the
request is accepted (200) and both the returned document and the stored
one now record `'mallory'` as author. -/
theorem update_overwrites_author :
    validateUpdateBody authorBody = [] ∧
    alicePost.author = "alice" ∧
    (updatePost [alicePost] "alice" "p1" authorBody).1 =
      .okPost 200 (mergeBody alicePost authorBody) ∧
    (mergeBody alicePost authorBody).author = "mallory" ∧
    (updatePost [alicePost] "alice" "p1" authorBody).2 =
      [mergeBody alicePost authorBody] := by
  refine ⟨rfl, rfl, ?_, rfl, ?_⟩ <;> decide

/-- Claim C3 counterexample: the post exists, `'bob'` is not its author
and the body fails validation (101-character title), yet the response is
the 403 ownership rejection — not the 400 validation response the claim
requires. -/
theorem update_validation_not_before_ownership :
    alicePost.author ≠ "bob" ∧
    validateUpdateBody longTitleBody ≠ [] ∧
    (updatePost [alicePost] "bob" "p1" longTitleBody).1 = .fail 403 "Unauthorized" ∧
    (∀ errs, (updatePost [alicePost] "bob" "p1" longTitleBody).1 ≠
      .failErrors 400 errs) := by
  have h3 : (updatePost [alicePost] "bob" "p1" longTitleBody).1 =
      .fail 403 "Unauthorized" := by decide
  refine ⟨by decide, by decide, h3, fun errs h => ?_⟩
  rw [h3] at h
  simp at h

/-- Claim C3 as amended: in the update handler ownership is checked
before validation, so an existing post with a foreign acting identity
answers 403 even when the body is invalid; delete checks ownership with
no body validation at all; and in both mutating routes ownership is
checked only after the fetch-by-id existence check, so a missing post
answers 404 before any 403. -/
theorem mutation_check_order (store : List Post) (actingId postId : String)
    (bdy : UpdateBody) :
    (findPostById store postId = none →
      updatePost store actingId postId bdy = (.fail 404 "Post not found", store) ∧
      deletePost store actingId postId = (.fail 404 "Post not found", store)) ∧
    (∀ post, findPostById store postId = some post → post.author ≠ actingId →
      updatePost store actingId postId bdy = (.fail 403 "Unauthorized", store) ∧
      deletePost store actingId postId = (.fail 403 "Unauthorized", store)) := by
  constructor
  · intro hnone
    exact ⟨by simp [updatePost, hnone], by simp [deletePost, hnone]⟩
  · intro post hfind hown
    exact ⟨by simp [updatePost, hfind, hown], by simp [deletePost, hfind, hown]⟩

/-- Claim C3 witness: a missing id answers 404, and `'bob'` with an
invalid body against `alicePost` answers 403 on both routes. -/
theorem mutation_check_order_witness :
    updatePost [alicePost] "bob" "nope" longTitleBody =
      (.fail 404 "Post not found", [alicePost]) ∧
    updatePost [alicePost] "bob" "p1" longTitleBody =
      (.fail 403 "Unauthorized", [alicePost]) ∧
    deletePost [alicePost] "bob" "p1" = (.fail 403 "Unauthorized", [alicePost]) := by
  refine ⟨?_, ?_, ?_⟩
  · exact ((mutation_check_order [alicePost] "bob" "nope" longTitleBody).1
      (by decide)).1
  · exact ((mutation_check_order [alicePost] "bob" "p1" longTitleBody).2 alicePost
      (by decide) (by decide)).1
  · exact ((mutation_check_order [alicePost] "bob" "p1" longTitleBody).2 alicePost
      (by decide) (by decide)).2

/-- Claim C6: on a well-formed login body, an e-mail absent from the
credential store and a present e-mail with a mismatching password produce
the identical response — status 401 with body
`{success:false, error:'Invalid credentials'}` — revealing nothing about
which check failed. -/
theorem login_failure_indistinguishable (emailValid : String → Bool)
    (matchPassword : String → String → Bool) (secret : String) (now : Nat)
    (users : List User) (bdy : LoginBody)
    (hmail : emailValid bdy.email = true) (hpw : bdy.password ≠ "")
    (hnomatch : ∀ u, findByEmail users bdy.email = some u →
      matchPassword u.password bdy.password = false) :
    login emailValid matchPassword secret now users bdy =
      .err 401 false "Invalid credentials" := by
  have herrs : validateLogin emailValid bdy = [] := by
    simp [validateLogin, hmail, hpw]
  cases hfind : findByEmail users bdy.email with
  | none => simp [login, herrs, hfind]
  | some u => simp [login, herrs, hfind, hnomatch u hfind]

/-- Claim C6 witness: the unknown e-mail `bob@example.com` and the known
e-mail `alice@example.com` with a wrong password yield the same body. -/
theorem login_failure_indistinguishable_witness :
    login (fun _ => true) (fun _ _ => false) "secret" 0 demoUsers
      ⟨"bob@example.com", "pw"⟩ = .err 401 false "Invalid credentials" ∧
    login (fun _ => true) (fun _ _ => false) "secret" 0 demoUsers
      ⟨"alice@example.com", "wrong"⟩ = .err 401 false "Invalid credentials" := by
  constructor
  · have hn : findByEmail demoUsers "bob@example.com" = none := by decide
    exact login_failure_indistinguishable (fun _ => true) (fun _ _ => false)
      "secret" 0 demoUsers ⟨"bob@example.com", "pw"⟩ rfl (by decide)
      (fun u h => by rw [hn] at h)
  · exact login_failure_indistinguishable (fun _ => true) (fun _ _ => false)
      "secret" 0 demoUsers ⟨"alice@example.com", "wrong"⟩ rfl (by decide)
      (fun u _ => rfl)

/-- Claim C10: `page` and `limit` query values that are absent or
non-numeric (`parseInt` gives `NaN`) or that parse to `0` fall back to
the defaults 1 and 10, because the code computes `parseInt(x) || d`; in
particular `limit=0` behaves exactly like `limit=10` (so at most 10
items, never a forced empty page) and `page=0` behaves like `page=1`. -/
theorem listPosts_falsy_defaults (store : List Post) (pageQ limitQ : Option Int)
    (catQ : Option String) :
    listPosts store pageQ (some 0) catQ = listPosts store pageQ (some 10) catQ ∧
    listPosts store (some 0) limitQ catQ = listPosts store (some 1) limitQ catQ ∧
    listPosts store none none catQ = listPosts store (some 1) (some 10) catQ ∧
    (listPosts store pageQ (some 0) catQ).1.length ≤ 10 := by
  refine ⟨rfl, rfl, rfl, ?_⟩
  simp only [listPosts]
  calc (((sortPostsByCreatedDesc (categoryFilterPosts store catQ)).drop
        ((parseIntOr pageQ 1 - 1) * parseIntOr (some 0) 10).toNat).take
        (parseIntOr (some 0) 10).toNat).length
      ≤ (parseIntOr (some 0) 10).toNat := List.length_take_le _ _
    _ ≤ 10 := by decide

/-- Claim C7: listing with positive page `p` and limit `l` answers
pagination metadata `{total: n, page: p, pages: ceil(n/l)}`, where `n`
counts the posts matching the optional category filter, and at most `l`
items, sorted by creation time descending. -/
theorem listPosts_pagination (store : List Post) (p l : ℕ) (catQ : Option String)
    (hp : 0 < p) (hl : 0 < l) :
    (listPosts store (some (p : Int)) (some (l : Int)) catQ).2 =
      { total := (categoryFilterPosts store catQ).length
        page := (p : Int)
        pages := ((((categoryFilterPosts store catQ).length + l - 1) / l : ℕ) : Int) } ∧
    (listPosts store (some (p : Int)) (some (l : Int)) catQ).1.length ≤ l ∧
    List.Sorted createdDesc (listPosts store (some (p : Int)) (some (l : Int)) catQ).1 := by
  have hpage : parseIntOr (some (p : Int)) 1 = (p : Int) := by
    have hne : (p : Int) ≠ 0 := by omega
    simp [parseIntOr, hne]
  have hlimit : parseIntOr (some (l : Int)) 10 = (l : Int) := by
    have hne : (l : Int) ≠ 0 := by omega
    simp [parseIntOr, hne]
  refine ⟨?_, ?_, ?_⟩
  · simp only [listPosts, hpage, hlimit]
    rw [mathCeilDiv_natCast _ l hl]
  · simp only [listPosts, hpage, hlimit]
    calc (((sortPostsByCreatedDesc (categoryFilterPosts store catQ)).drop
          (((p : Int) - 1) * (l : Int)).toNat).take ((l : Int)).toNat).length
        ≤ ((l : Int)).toNat := List.length_take_le _ _
      _ ≤ l := by omega
  · simp only [listPosts, hpage, hlimit]
    have hsorted : List.Sorted createdDesc
        (sortPostsByCreatedDesc (categoryFilterPosts store catQ)) :=
      List.sorted_insertionSort createdDesc _
    exact hsorted.sublist ((List.take_sublist _ _).trans (List.drop_sublist _ _))

/-- Claim C7 witness: page 2 and limit 5 against 12 posts answer
`{total:12, page:2, pages:3}` with at most 5 items, sorted. -/
theorem listPosts_pagination_witness :
    (listPosts twelvePosts (some 2) (some 5) none).2 =
      { total := 12, page := 2, pages := 3 } ∧
    (listPosts twelvePosts (some 2) (some 5) none).1.length ≤ 5 ∧
    List.Sorted createdDesc (listPosts twelvePosts (some 2) (some 5) none).1 := by
  have h := listPosts_pagination twelvePosts 2 5 none (by decide) (by decide)
  refine ⟨h.1.trans (by decide), h.2.1, h.2.2⟩

/-- Claim C8 counterexample: a 51-character name that is non-empty and
not present in the (empty) store does not yield a 201 creation — the
mongoose `maxlength: [50]` validator makes `save()` throw, `next(err)`
leaves the route, and nothing is stored. -/
theorem category_create_length_cex :
    longCatName ≠ "" ∧
    (∀ c₀, c₀ ∈ ([] : List Category) → c₀.name ≠ longCatName) ∧
    (createCategory [] "c9" (some longCatName)).1 = .thrown ∧
    (createCategory [] "c9" (some longCatName)).2 = [] ∧
    (∀ c, (createCategory [] "c9" (some longCatName)).1 ≠ .created 201 true c) := by
  have h3 : (createCategory [] "c9" (some longCatName)).1 = .thrown := by decide
  refine ⟨by decide, by simp, h3, by decide, fun c h => ?_⟩
  rw [h3] at h
  simp at h

/-- Claim C8 as amended: creating a category whose (non-empty) name
equals an existing category's name under case-sensitive comparison
answers 400 `{success:false, error:'Category already exists'}` and
stores nothing; creating with a non-empty name of at most 50 characters,
carrying no surrounding whitespace and not already present, answers 201
and the new category appears in the listing, which is sorted by name. -/
theorem category_create_spec (store : List Category) (newId name : String) :
    (name ≠ "" → ∀ c₀, c₀ ∈ store → c₀.name = name →
      createCategory store newId (some name) =
        (.err 400 false "Category already exists", store)) ∧
    (name ≠ "" → trimStr name = name → name.data.length ≤ 50 →
      (∀ c₀ ∈ store, c₀.name ≠ name) →
      createCategory store newId (some name) =
        (.created 201 true ⟨newId, name⟩, store ++ [⟨newId, name⟩]) ∧
      (⟨newId, name⟩ : Category) ∈ listCategories (store ++ [⟨newId, name⟩]) ∧
      List.Sorted catNameLe (listCategories (store ++ [⟨newId, name⟩]))) := by
  constructor
  · intro hne c₀ hmem hname
    have hfs : (store.find? (fun c => c.name = name)).isSome := by
      rw [List.find?_isSome]
      exact ⟨c₀, hmem, by simp [hname]⟩
    obtain ⟨c, hc⟩ := Option.isSome_iff_exists.mp hfs
    simp [createCategory, hne, hc]
  · intro hne htrim hlen hfresh
    have hfind : store.find? (fun c => c.name = name) = none := by
      rw [List.find?_eq_none]
      intro c hc
      simp [hfresh c hc]
    have hany : store.any (fun x => x.name = name) = false := by
      rw [List.any_eq_false]
      intro c hc
      simp [hfresh c hc]
    have hgt : ¬ name.data.length > 50 := by omega
    have hgt2 : ¬ name.length > 50 := by
      show ¬ name.data.length > 50
      omega
    have hsave : saveCategory store { id := newId, name := name } =
        some { id := newId, name := name } := by
      simp only [saveCategory, htrim]
      simp [hne, hgt, hgt2, hany]
    refine ⟨by simp [createCategory, hne, hfind, hsave], ?_, ?_⟩
    · exact (List.perm_insertionSort catNameLe (store ++ [⟨newId, name⟩])).mem_iff.mpr
        (by simp : (⟨newId, name⟩ : Category) ∈ store ++ [⟨newId, name⟩])
    · exact List.sorted_insertionSort catNameLe _

/-- Claim C8 witness: against the store `[{name:'Art'}]`, creating
`'Art'` again conflicts and creating `'Tech'` succeeds and is listed. -/
theorem category_create_spec_witness :
    createCategory [artCat] "c9" (some "Art") =
      (.err 400 false "Category already exists", [artCat]) ∧
    createCategory [artCat] "c9" (some "Tech") =
      (.created 201 true ⟨"c9", "Tech"⟩, [artCat, ⟨"c9", "Tech"⟩]) ∧
    (⟨"c9", "Tech"⟩ : Category) ∈ listCategories [artCat, ⟨"c9", "Tech"⟩] := by
  refine ⟨?_, ?_, ?_⟩
  · exact (category_create_spec [artCat] "c9" "Art").1 (by decide) artCat
      (by decide) (by decide)
  · exact ((category_create_spec [artCat] "c9" "Tech").2 (by decide) (by decide)
      (by decide) (by decide)).1
  · exact ((category_create_spec [artCat] "c9" "Tech").2 (by decide) (by decide)
      (by decide) (by decide)).2.1

end BlogApi
